import Mathlib

/-!
Verification of the OT-NS discrete-event network simulator core against its
natural-language specification.  The definitions below are shallow embeddings,
translated from the Go sources:

* `src/types/event.go`        — the event wire codec (Serialize / Deserialize);
* `src/radiomodel/fading_model.go`   — the MutualInterference radio model
  (txStart, DeleteNode, applyInterference, computeShadowFading);
* `src/radiomodel/radiomodel.go`     — model parameters and clipRssi;
* `src/unnamed/part_004`      — computeIndoorRssi3gpp;
* `src/simulation/node.go`    — the synchronous CLI command protocol.

Machine integers are modelled as `Nat` / `Int` with explicit `% 2 ^ 64` (or
byte masks) where overflow can matter; byte strings are `List Nat` whose
entries the wellformedness predicates bound below 256; fallible operations
(Go panics and failed assertions) return `Option`.
-/

namespace OTNS

/-! ## Event wire codec, from src/types/event.go -/

/-- Event type IDs (external, shared between OT-NS and OT node), from the
constant block of src/types/event.go. -/
def EventTypeAlarmFired : Nat := 0

def EventTypeRadioReceived : Nat := 1

def EventTypeUartWrite : Nat := 2

def EventTypeRadioSpinelWrite : Nat := 3

def EventTypePostCmd : Nat := 4

def EventTypeStatusPush : Nat := 5

def EventTypeRadioCommStart : Nat := 6

def EventTypeRadioTxDone : Nat := 7

def EventTypeRadioChannelSample : Nat := 8

def EventTypeRadioState : Nat := 9

def EventTypeRadioRxDone : Nat := 10

def EventTypeExtAddr : Nat := 11

/-- OpenThread error codes used in the radio events.  The `OT_ERROR_*`
identifiers are referenced by the Go sources but defined in the OpenThread
headers outside this repository; the numeric values are those of the
OpenThread `otError` enumeration.  None of the claims depends on the exact
numbers, only on the named constants. -/
def OT_ERROR_NONE : Nat := 0

def OT_ERROR_ABORT : Nat := 11

def OT_ERROR_FCS : Nat := 17

/-- InvalidTimestamp of src/types/event.go: math.MaxUint64. -/
def InvalidTimestamp : Nat := 2 ^ 64 - 1

/-- EventMsgHeaderLen of src/types/event.go. -/
def EventMsgHeaderLen : Nat := 11

/-- AlarmEventData of src/types/event.go. -/
structure AlarmEventData where
  MsgId : Nat
  deriving DecidableEq, Repr

/-- RadioCommEventData of src/types/event.go.  Channel and Error are uint8,
PowerDbm is int8, Duration is uint64. -/
structure RadioCommEventData where
  Channel : Nat
  PowerDbm : Int
  Error : Nat
  Duration : Nat
  deriving DecidableEq, Repr

/-- RadioStateEventData of src/types/event.go. -/
structure RadioStateEventData where
  Channel : Nat
  PowerDbm : Int
  EnergyState : Nat
  SubState : Nat
  State : Nat
  deriving DecidableEq, Repr

/-- Event of src/types/event.go.  The Go field `Type` is renamed `EType`
because `Type` is a Lean keyword; `SrcAddr` (a UDP address pointer used only
for socket bookkeeping) is not modelled.  `Data` is the raw byte payload. -/
structure Event where
  Delay : Nat
  EType : Nat
  Data : List Nat
  NodeId : Nat
  Timestamp : Nat
  MustDispatch : Bool
  AlarmData : AlarmEventData
  RadioCommData : RadioCommEventData
  RadioStateData : RadioStateEventData
  deriving DecidableEq, Repr

/-- Zero value of the Event struct, as produced by `Event{}` in Go. -/
def Event.zero : Event :=
  { Delay := 0, EType := 0, Data := [], NodeId := 0, Timestamp := 0,
    MustDispatch := false, AlarmData := { MsgId := 0 },
    RadioCommData := { Channel := 0, PowerDbm := 0, Error := 0, Duration := 0 },
    RadioStateData :=
      { Channel := 0, PowerDbm := 0, EnergyState := 0, SubState := 0, State := 0 } }

/-- binary.LittleEndian.PutUint64: the 8 little-endian bytes of n. -/
def putU64 (n : Nat) : List Nat :=
  [n % 256, n / 256 % 256, n / 256 ^ 2 % 256, n / 256 ^ 3 % 256,
   n / 256 ^ 4 % 256, n / 256 ^ 5 % 256, n / 256 ^ 6 % 256, n / 256 ^ 7 % 256]

/-- binary.LittleEndian.PutUint16: the 2 little-endian bytes of n (Go first
truncates the length argument with uint16(...), hence the masks). -/
def putU16 (n : Nat) : List Nat :=
  [n % 256, n / 256 % 256]

/-- binary.LittleEndian.Uint64 on a byte slice of length at least 8 (Go
panics on shorter slices; every call site below guards the length, so the
default 0 of the catch-all branch is unreachable). -/
def getU64 : List Nat → Nat
  | b0 :: b1 :: b2 :: b3 :: b4 :: b5 :: b6 :: b7 :: _ =>
      b0 + 256 * b1 + 256 ^ 2 * b2 + 256 ^ 3 * b3 + 256 ^ 4 * b4 +
        256 ^ 5 * b5 + 256 ^ 6 * b6 + 256 ^ 7 * b7
  | _ => 0

/-- binary.LittleEndian.Uint16, with the same convention as getU64. -/
def getU16 : List Nat → Nat
  | b0 :: b1 :: _ => b0 + 256 * b1
  | _ => 0

/-- Go byte(x) applied to an int8 value: the two-complement byte. -/
def int8ToByte (i : Int) : Nat := (i % 256).toNat

/-- Go int8(b) applied to a byte: the signed reinterpretation. -/
def byteToInt8 (b : Nat) : Int := if b < 128 then (b : Int) else (b : Int) - 256

/-- Extra serialized fields of Serialize of src/types/event.go: only
AlarmFired and the four RadioComm kinds (ChannelSample, RxDone, TxDone,
CommStart) serialize kind-specific struct fields in front of the Data
bytes. -/
def serializeExtra (e : Event) : List Nat :=
  if e.EType = EventTypeAlarmFired then
    putU64 e.AlarmData.MsgId
  else if e.EType = EventTypeRadioChannelSample ∨ e.EType = EventTypeRadioRxDone ∨
      e.EType = EventTypeRadioTxDone ∨ e.EType = EventTypeRadioCommStart then
    e.RadioCommData.Channel % 256 :: int8ToByte e.RadioCommData.PowerDbm ::
      e.RadioCommData.Error % 256 :: putU64 e.RadioCommData.Duration
  else
    []

/-- Serialize of src/types/event.go: 11-byte header (delay, kind, payload
length) followed by the kind-specific extra fields and the raw Data bytes;
Timestamp is never sent. -/
def Event.Serialize (e : Event) : List Nat :=
  let payload := serializeExtra e ++ e.Data
  putU64 e.Delay ++ e.EType % 256 :: (putU16 payload.length ++ payload)

/-- deserializeRadioCommData of src/types/event.go.  The Go code asserts
len(data) >= 11 (assertion failure modelled as none) then reads channel,
power, error and the little-endian uint64 duration. -/
def deserializeRadioCommData : List Nat → Option RadioCommEventData
  | c :: p :: er :: rest =>
      if 8 ≤ rest.length then
        some { Channel := c, PowerDbm := byteToInt8 p, Error := er,
               Duration := getU64 rest }
      else none
  | _ => none

/-- deserializeRadioStateData of src/types/event.go: asserts len(data) >= 5
then reads the five single-byte fields. -/
def deserializeRadioStateData : List Nat → Option RadioStateEventData
  | c :: p :: en :: sub :: st :: _ =>
      some { Channel := c, PowerDbm := byteToInt8 p, EnergyState := en,
             SubState := sub, State := st }
  | _ => none

/-- Kind-specific part of Deserialize of src/types/event.go, updating the
receiver event e0.  Failed assertions are modelled as none: a too-short
RadioComm or RadioState payload, and the duplicated-channel check of the
CommStart and RxDone kinds (where Go additionally panics with an index out
of range when the PSDU part is empty). -/
def deserializeBody (e0 : Event) (delay ty : Nat) (edata : List Nat) : Option Event :=
  if ty = EventTypeAlarmFired then
        if 8 ≤ edata.length then
          some { e0 with
                  Delay := delay,
                  EType := ty,
                  AlarmData := { MsgId := getU64 edata },
                  Data := edata.drop 8,
                  Timestamp := InvalidTimestamp }
        else
          some { e0 with
                  Delay := delay,
                  EType := ty,
                  Data := edata,
                  Timestamp := InvalidTimestamp }
      else if ty = EventTypeRadioChannelSample then
        match deserializeRadioCommData edata with
        | none => none
        | some rc =>
            some { e0 with
                    Delay := delay,
                    EType := ty,
                    RadioCommData := rc,
                    Data := edata.drop 11,
                    Timestamp := InvalidTimestamp }
      else if ty = EventTypeRadioRxDone ∨ ty = EventTypeRadioCommStart then
        match deserializeRadioCommData edata with
        | none => none
        | some rc =>
            match edata.drop 11 with
            | [] => none
            | c :: rest =>
                if rc.Channel = c then
                  some { e0 with
                          Delay := delay,
                          EType := ty,
                          RadioCommData := rc,
                          Data := c :: rest,
                          Timestamp := InvalidTimestamp }
                else none
      else if ty = EventTypeRadioState then
        match deserializeRadioStateData edata with
        | none => none
        | some rs =>
            some { e0 with
                    Delay := delay,
                    EType := ty,
                    RadioStateData := rs,
                    Data := edata.drop 5,
                    Timestamp := InvalidTimestamp }
      else
        some { e0 with
                Delay := delay,
                EType := ty,
                Data := edata,
                Timestamp := InvalidTimestamp }

/-- Deserialize of src/types/event.go: parse the 11-byte header (delay,
kind, payload length), check the declared payload length against the actual
one (an assertion in Go), then parse the kind-specific part with
deserializeBody.  A message shorter than the header is a panic in Go,
modelled as none. -/
def Event.Deserialize (e0 : Event) : List Nat → Option Event
  | d0 :: d1 :: d2 :: d3 :: d4 :: d5 :: d6 :: d7 :: ty :: l0 :: l1 :: edata =>
      if getU16 [l0, l1] ≠ edata.length then none
      else deserializeBody e0 (getU64 [d0, d1, d2, d3, d4, d5, d6, d7]) ty edata
  | _ => none

/-! ## MutualInterference radio model state, from src/radiomodel/fading_model.go
(the 2022-2023 variant starting at its line 339, the one cited by the claims).
NodeId and ChannelId are Go ints, modelled as Nat.  The Go maps
`activeTransmitters`, `activeChannelSamplers` (ChannelId to key-set of
NodeId) and `interferedBy` (NodeId to key-set of NodeId) are modelled as
functions into duplicate-free lists; map-key insertion is `insertKey`,
map-key deletion is removal by filtering.  Per-node mutable fields touched
by the modelled handlers (TxPower, RadioChannel) are part of the state.
The fields receivingFrom and rssiSampleMax of RadioNode are consulted by no
claim and are not modelled. -/

/-- MinChannelNumber of src/radiomodel/radiomodel.go. -/
def MinChannelNumber : Nat := 0

/-- MaxChannelNumber of src/radiomodel/radiomodel.go. -/
def MaxChannelNumber : Nat := 26

/-- Key-set insertion of a Go map: inserting an existing key leaves the key
set unchanged, a new key is appended. -/
def insertKey (l : List Nat) (x : Nat) : List Nat :=
  if x ∈ l then l else l ++ [x]

/-- Pointwise update of a function-modelled map. -/
def fupd {α : Type} (f : Nat → α) (k : Nat) (v : α) : Nat → α :=
  fun x => if x = k then v else f x

/-- Mutable state of RadioModelMutualInterference together with the per-node
fields of the registered RadioNode records that the modelled handlers write. -/
structure MIState where
  nodes : List Nat
  transmitters : Nat → List Nat
  samplers : Nat → List Nat
  interferedBy : Nat → List Nat
  txPower : Nat → Int
  radioChannel : Nat → Nat

/-- State after init() of RadioModelMutualInterference: all maps empty.  The
per-node defaults are those of NewRadioNode (TxPower = defaultTxPowerDbm = 0,
RadioChannel = DefaultChannelNumber = 11). -/
def MIState.init : MIState :=
  { nodes := [],
    transmitters := fun _ => [],
    samplers := fun _ => [],
    interferedBy := fun _ => [],
    txPower := fun _ => 0,
    radioChannel := fun _ => 11 }

/-- AddNode of RadioModelMutualInterference: registers the node and gives it
an empty interferedBy set. -/
def MIState.addNode (st : MIState) (id : Nat) : MIState :=
  { st with
      nodes := insertKey st.nodes id,
      interferedBy := fupd st.interferedBy id [] }

/-- DeleteNode of RadioModelMutualInterference: removes the node record,
deletes the id from the transmitter and channel-sampler sets of every
channel from MinChannelNumber to MaxChannelNumber, and clears the
interferedBy set OF the deleted id (the Go code does not remove the id from
the interferedBy sets of other nodes). -/
def MIState.deleteNode (st : MIState) (id : Nat) : MIState :=
  { st with
      nodes := st.nodes.filter (fun x => x ≠ id),
      transmitters := fun c =>
        if MinChannelNumber ≤ c ∧ c ≤ MaxChannelNumber then
          (st.transmitters c).filter (fun x => x ≠ id)
        else st.transmitters c,
      samplers := fun c =>
        if MinChannelNumber ≤ c ∧ c ≤ MaxChannelNumber then
          (st.samplers c).filter (fun x => x ≠ id)
        else st.samplers c,
      interferedBy := fupd st.interferedBy id [] }

/-- txStart of RadioModelMutualInterference (fading_model.go lines 514-558).
If the node already transmits or channel-samples on the channel of the
radio-comm-start event, a tx-done event carrying OT_ERROR_ABORT with
timestamp incremented by one is queued and nothing else happens.  Otherwise
the node TxPower and channel are set, its interferedBy set is reset and
filled with the transmitters currently active on the channel (which each
record the new node in turn), the node is added to the transmitter set, and
the rx-start broadcast plus the delayed tx-done event are queued.  Returns
the new state together with the list of queued events.  Timestamps are
uint64, hence the explicit wrap. -/
def MIState.txStart (st : MIState) (id : Nat) (evt : Event) : MIState × List Event :=
  let ch := evt.RadioCommData.Channel
  if id ∈ st.transmitters ch ∨ id ∈ st.samplers ch then
    let txDoneEvt : Event :=
      { evt with
          EType := EventTypeRadioTxDone,
          RadioCommData := { evt.RadioCommData with Error := OT_ERROR_ABORT },
          MustDispatch := true,
          Timestamp := (evt.Timestamp + 1) % 2 ^ 64 }
    (st, [txDoneEvt])
  else
    let st1 : MIState :=
      { st with
          txPower := fupd st.txPower id evt.RadioCommData.PowerDbm,
          radioChannel := fupd st.radioChannel id ch,
          interferedBy := fun i =>
            if i = id then st.transmitters ch
            else if i ∈ st.transmitters ch then insertKey (st.interferedBy i) id
            else st.interferedBy i,
          transmitters := fupd st.transmitters ch (insertKey (st.transmitters ch) id) }
    let rxStartEvt : Event :=
      { evt with
          EType := EventTypeRadioCommStart,
          RadioCommData := { evt.RadioCommData with Error := OT_ERROR_NONE },
          MustDispatch := true }
    let txDoneEvt : Event :=
      { evt with
          EType := EventTypeRadioTxDone,
          RadioCommData := { evt.RadioCommData with Error := OT_ERROR_NONE },
          MustDispatch := false,
          Timestamp := (evt.Timestamp + evt.RadioCommData.Duration) % 2 ^ 64 }
    (st1, [rxStartEvt, txDoneEvt])

/-- txStop of RadioModelMutualInterference, state part: the node is removed
from the transmitter set of the event channel (the tx-done and rx-done
events it queues are not needed by any claim; the Go assertion that the node
was transmitting only guards against an impossible state and does not modify
it). -/
def MIState.txStop (st : MIState) (id : Nat) (evt : Event) : MIState :=
  { st with
      transmitters :=
        fupd st.transmitters evt.RadioCommData.Channel
          ((st.transmitters evt.RadioCommData.Channel).filter (fun x => x ≠ id)) }

/-- channelSampleStart of RadioModelMutualInterference, state part: when the
node already transmits or samples on the event channel only the event error
is set (no state change); otherwise the node moves to the channel and its
rssiSampleMax is seeded (the latter field is not modelled).  Note that this
variant of the source never inserts into activeChannelSamplers. -/
def MIState.channelSampleStart (st : MIState) (id : Nat) (evt : Event) : MIState :=
  let ch := evt.RadioCommData.Channel
  if id ∈ st.transmitters ch ∨ id ∈ st.samplers ch then st
  else { st with radioChannel := fupd st.radioChannel id ch }

/-- Radio-model operations for reasoning about arbitrary prior operation
sequences (claim C4): the state-mutating entry points of
RadioModelMutualInterference. -/
inductive MIOp
  | addNode (id : Nat)
  | deleteNode (id : Nat)
  | txStart (id : Nat) (evt : Event)
  | txStop (id : Nat) (evt : Event)
  | sampleStart (id : Nat) (evt : Event)

/-- One operation applied to the model state. -/
def MIState.step (st : MIState) : MIOp → MIState
  | .addNode id => st.addNode id
  | .deleteNode id => st.deleteNode id
  | .txStart id evt => (st.txStart id evt).1
  | .txStop id evt => st.txStop id evt
  | .sampleStart id evt => st.channelSampleStart id evt

/-- A sequence of operations applied to the model state. -/
def MIState.run (st : MIState) : List MIOp → MIState
  | [] => st
  | op :: rest => (st.step op).run rest

/-- Validity of the channel carried by an operation: radio events carry
channels inside the initialized channel range 0..26 (the Go maps are only
allocated for those channels and a write outside the range would dereference
a nil map; SetChannel moreover asserts the range). -/
def MIOp.chOK : MIOp → Prop
  | .addNode _ => True
  | .deleteNode _ => True
  | .txStart _ evt => evt.RadioCommData.Channel ≤ MaxChannelNumber
  | .txStop _ evt => evt.RadioCommData.Channel ≤ MaxChannelNumber
  | .sampleStart _ evt => evt.RadioCommData.Channel ≤ MaxChannelNumber

/-! ## applyInterference of RadioModelMutualInterference
(fading_model.go lines 584-607).  The loop over the recorded interferers is
modelled with the arbitrary iteration order of a Go map made explicit as a
list; GetTxRssi is a pure function of the source and destination node and is
abstracted as a parameter r (its definition combines pathloss, fading and
clipping over float64 and is treated separately for claim C7); DbValue
(float64) is modelled as the linearly ordered field of rationals.  The
ambient noise value rm.getRssiAmbientNoise(dst, channel) equals the
RssiNoiseFloor model parameter and enters as the parameter noise. -/

/-- Loop body of applyInterference: running maximum over the interferers,
aborted (none) as soon as the destination itself is found among them. -/
def interfererLoop (r : Nat → Nat → ℚ) (dst : Nat) : List Nat → ℚ → Option ℚ
  | [], acc => some acc
  | i :: rest, acc =>
      if i = dst then none else interfererLoop r dst rest (max acc (r i dst))

/-- applyInterference: the returned event carries OT_ERROR_ABORT and no BER
processing happens (second component none) when the destination is among the
recorded interferers; otherwise the event is handed to applyBerModel with
the SINR returned as the second component (applyBerModel itself is declared
outside this repository snapshot; the claims only concern the SINR value
passed to it). -/
def applyInterference (r : Nat → Nat → ℚ) (noise : ℚ) (src dst : Nat)
    (interferers : List Nat) (evt : Event) : Event × Option ℚ :=
  match interfererLoop r dst interferers noise with
  | none =>
      ({ evt with RadioCommData := { evt.RadioCommData with Error := OT_ERROR_ABORT } },
       none)
  | some m => (evt, some (r src dst - m))

/-! ## Synchronous CLI command protocol, from src/simulation/node.go.
The pending-output channel of a node is modelled as the list of CLI lines it
will produce, in order; a read past the end of the list models a timeout
(TryExpectLine returning found = false).  Lines are Lean strings. -/

/-- Matching of a literal character sequence at the head of a line, returning
the remainder on success. -/
def dropLit : List Char → List Char → Option (List Char)
  | [], l => some l
  | _ :: _, [] => none
  | c :: p, d :: l => if c = d then dropLit p l else none

/-- Tail of the digit run of the regex alternative `Error \d+: .*`: consume
further digits, then require the literal colon-blank.  Backtracking is not
needed because a colon is not a digit. -/
def digitsThenColon : List Char → Bool
  | [] => false
  | c :: rest =>
      if c.isDigit then digitsThenColon rest
      else (dropLit (": ".data) (c :: rest)).isSome

/-- Match of the regex `(Done|Error \d+: .*)` at the start of the character
list. -/
def headDoneOrError (l : List Char) : Bool :=
  (dropLit ("Done".data) l).isSome ||
    (match dropLit ("Error ".data) l with
     | none => false
     | some rest =>
         match rest with
         | [] => false
         | c :: rest2 => c.isDigit && digitsThenColon rest2)

/-- MatchString of the unanchored regex DoneOrErrorRegexp of
src/simulation/node.go: the pattern matches at some position of the line. -/
def matchDoneOrError : List Char → Bool
  | [] => false
  | c :: rest => headDoneOrError (c :: rest) || matchDoneOrError rest

/-- DoneOrErrorRegexp.MatchString on a line. -/
def lineIsDoneOrError (s : String) : Bool :=
  matchDoneOrError s.data

/-- TryExpectLine of src/simulation/node.go, on the pending CLI line list:
consume lines, accumulating them, until one satisfies the match predicate;
the accumulated lines (including the matching one) and the unconsumed
remainder are returned.  Exhausting the list without a match is the timeout
case (found = false), returned as none. -/
def consumeUntil (p : String → Bool) : List String → Option (List String × List String)
  | [] => none
  | line :: rest =>
      if p line then some ([line], rest)
      else
        match consumeUntil p rest with
        | none => none
        | some (out, r) => some (line :: out, r)

/-- Command of src/simulation/node.go (lines 261-290): emit the command,
consume pending output until the echo of the command line is observed, then
consume until a line matching DoneOrErrorRegexp appears.  On echo timeout or
terminator timeout an empty slice is returned.  The last consumed line is
the result: when it is exactly the Done literal the lines before it are
returned, otherwise (a CLI error, which is not a failure of the node) the
whole consumed output including the terminating Error line is returned. -/
def nodeCommand (cmd : String) (stream : List String) : List String :=
  match consumeUntil (fun l => l = cmd) stream with
  | none => []
  | some (_, rest) =>
      match consumeUntil lineIsDoneOrError rest with
      | none => []
      | some (output, _) =>
          match output.getLast? with
          | none => []
          | some result =>
              if result = "Done" then output.dropLast else output

/-! ## Pathloss, clipping and shadow fading, from src/unnamed/part_004,
src/radiomodel/radiomodel.go and src/radiomodel/fading_model.go.  These
functions compute over float64; they are modelled over the real numbers,
with math.Log10 as the real base-10 logarithm (the arguments at every use
are at least 0.01, inside the domain). -/

/-- RSSI parameter encodings of src/radiomodel/radiomodel.go (DbValue). -/
def RssiInvalid : ℝ := 127

/-- Highest RSSI value that can be returned. -/
def RssiMax : ℝ := 126

/-- Lowest RSSI value that can be returned. -/
def RssiMin : ℝ := -126

/-- Encoding of an RSSI below every representable value. -/
def RssiMinusInfinity : ℝ := -127

/-- RadioModelParams of src/radiomodel/radiomodel.go (2022-2024 variant). -/
structure RadioModelParams where
  MeterPerUnit : ℝ
  IsDiscLimit : Bool
  RssiMinDbm : ℝ
  RssiMaxDbm : ℝ
  ExponentDb : ℝ
  FixedLossDb : ℝ
  NlosExponentDb : ℝ
  NlosFixedLossDb : ℝ
  NoiseFloorDbm : ℝ
  SnrMinThresholdDb : ℝ
  ShadowFadingSigmaDb : ℝ

/-- computeIndoorRssi3gpp of src/unnamed/part_004: the Indoor/Office 3GPP
pathloss model.  For distances of at least 0.01 m the LOS pathloss is
computed and clamped to be nonnegative; when an NLOS branch is configured
(NlosExponentDb positive) the maximum of the two pathloss branches is taken.
The result is the transmit power minus the pathloss. -/
noncomputable def computeIndoorRssi3gpp (dist txPower : ℝ) (p : RadioModelParams) : ℝ :=
  let distMeters := dist * p.MeterPerUnit
  let pathloss :=
    if 0.01 ≤ distMeters then
      let pl0 := p.ExponentDb * Real.logb 10 distMeters + p.FixedLossDb
      let pl1 := if pl0 < 0 then 0 else pl0
      if 0 < p.NlosExponentDb then
        max pl1 (p.NlosExponentDb * Real.logb 10 distMeters + p.NlosFixedLossDb)
      else pl1
    else 0
  txPower - pathloss

/-- math.Round of Go: round half away from zero, to an integer. -/
noncomputable def roundGo (x : ℝ) : ℤ :=
  if 0 ≤ x then ⌊x + 1 / 2⌋ else -⌊-x + 1 / 2⌋

/-- clipRssi of src/radiomodel/radiomodel.go: clip the DbValue to the int8
range, mapping values above RssiMax to RssiMax and values below RssiMin to
RssiMinusInfinity, then round for return to the OT node. -/
noncomputable def clipRssi (rssi : ℝ) : ℤ :=
  roundGo (if RssiMax < rssi then RssiMax
           else if rssi < RssiMin then RssiMinusInfinity
           else rssi)

/-- Modelled from the spec: GetTxRssi of the MutualInterference radio model
in its newest form.  The composing function is not present under src — only
its pieces are: the pathloss (computeIndoorRssi3gpp, src/unnamed/part_004),
the clipping (clipRssi, src/radiomodel/radiomodel.go), the shadow-fading
draw (fading_model.go), the interface contract (GetTxRssi of
src/radiomodel/radiomodel.go, "returns the expected RSSI value at dstNode,
or RssiMinusInfinity if the RSSI value will fall below the minimum Rx
sensitivity of the dstNode") and its callers.  Per the spec: RSSI equals
txPower minus pathloss minus shadow fading, clipped to the range RssiMin to
RssiMax (with values below RssiMin reported as RssiMinusInfinity, as
clipRssi does), and values below the receiver sensitivity are reported as
RssiMinusInfinity.  The shadow-fading term and the receiver sensitivity
enter as parameters. -/
noncomputable def getTxRssiMI (p : RadioModelParams)
    (distUnits txPower shadow rxSensitivity : ℝ) : ℝ :=
  let rssi := computeIndoorRssi3gpp distUnits txPower p - shadow
  let clipped :=
    if RssiMax < rssi then RssiMax
    else if rssi < RssiMin then RssiMinusInfinity
    else rssi
  if clipped < rxSensitivity then RssiMinusInfinity else clipped

/-! ## Shadow fading, from src/radiomodel/fading_model.go lines 35-83. -/

/-- IndoorModelParams of src/unnamed/part_003 (the parameter struct used by
the shadow-fading computation). -/
structure IndoorModelParams where
  ExponentDb : ℝ
  FixedLossDb : ℝ
  RangeInMeters : ℝ
  NoiseFloorDbm : ℝ
  SnrMinThresholdDb : ℝ
  ShadowFadingSigmaDb : ℝ

/-- RadioNode position data used by computeShadowFading (fields X, Y and
RadioRange of RadioNode of src/radiomodel/radionode.go). -/
structure SFNode where
  X : ℝ
  Y : ℝ
  RadioRange : ℝ

/-- Go int64 wrap-around of an unbounded integer. -/
def wrapInt64 (n : ℤ) : ℤ :=
  (n + 2 ^ 63) % 2 ^ 64 - 2 ^ 63

/-- computeShadowFading of src/radiomodel/fading_model.go.  The positions of
the two nodes are rounded to a 1 m grid (the division uses the RadioRange of
the src node on both; the Go assertion demands equal ranges), the left-most
(then top-most) grid point is selected as the first coordinate pair, a seed
is packed from the two pairs and the fixed per-model random seed with int64
wrap-around, and a single normal draw from a fresh PRNG seeded with that
value is scaled by the sigma parameter.  The composition
rand.New(rand.NewSource(seed)).NormFloat64() is a pure function of the seed
and is abstracted as the parameter normFromSeed; the dist parameter is
unused, as in the source. -/
noncomputable def computeShadowFading (normFromSeed : ℤ → ℝ) (rndSeed : ℤ)
    (src dst : SFNode) (dist : ℝ) (params : IndoorModelParams) : ℝ :=
  if params.ShadowFadingSigmaDb ≤ 0 then 0
  else
    let x1 := roundGo (src.X / src.RadioRange * params.RangeInMeters)
    let y1 := roundGo (src.Y / src.RadioRange * params.RangeInMeters)
    let x2 := roundGo (dst.X / src.RadioRange * params.RangeInMeters)
    let y2 := roundGo (dst.Y / src.RadioRange * params.RangeInMeters)
    let seed :=
      if x1 < x2 ∨ (x1 = x2 ∧ y1 < y2) then
        wrapInt64 (rndSeed + x1 + y1 * 2 ^ 16 + x2 * 2 ^ 32 + y2 * 2 ^ 48)
      else
        wrapInt64 (rndSeed + x2 + y2 * 2 ^ 16 + x1 * 2 ^ 32 + y1 * 2 ^ 48)
    normFromSeed seed * params.ShadowFadingSigmaDb

/-! ## Concrete fixtures used by witnesses and counterexamples. -/

/-- Radio-comm-start event fixture: channel 11, duration 100, sent at
timestamp 1000. -/
def c3ev : Event :=
  { Event.zero with
      Timestamp := 1000,
      RadioCommData := { Channel := 11, PowerDbm := 0, Error := 0, Duration := 100 } }

/-- State in which node 5 is transmitting on channel 11. -/
def c3st : MIState := ((MIState.init.addNode 5).txStart 5 c3ev).1

/-- Radio-comm event fixture on channel 11 for the operation sequences of
claim C4. -/
def c4ev : Event :=
  { Event.zero with
      RadioCommData := { Channel := 11, PowerDbm := 0, Error := 0, Duration := 100 } }

/-- Operation sequence in which nodes 1 and 2 overlap transmissions on
channel 11, so that each records the other as interferer. -/
def c4ops : List MIOp :=
  [MIOp.addNode 1, MIOp.addNode 2, MIOp.txStart 1 c4ev, MIOp.txStart 2 c4ev]

/-- Radio-tx-done event fixture with a nonzero RadioCommData, for the C5
counterexample. -/
def c5ev : Event :=
  { Event.zero with
      EType := EventTypeRadioTxDone,
      RadioCommData := { Channel := 11, PowerDbm := 0, Error := 0, Duration := 0 } }

/-- Alarm-fired event fixture for the C5 witness. -/
def c5evAlarm : Event :=
  { Event.zero with
      EType := EventTypeAlarmFired,
      Delay := 1234,
      AlarmData := { MsgId := 99 },
      Data := [7, 8] }

/-- Node fixture at position (10, 20) with radio range 100. -/
def c8a : SFNode := { X := 10, Y := 20, RadioRange := 100 }

/-- Node fixture at position (30, 40) with radio range 100. -/
def c8b : SFNode := { X := 30, Y := 40, RadioRange := 100 }

/-- Parameter fixture with the MutualInterference indoor defaults of
src/unnamed/part_003. -/
def c8p : IndoorModelParams :=
  { ExponentDb := 35, FixedLossDb := 40, RangeInMeters := 26.70,
    NoiseFloorDbm := -95, SnrMinThresholdDb := -4, ShadowFadingSigmaDb := 6 }

/-- Invariant for C4: all transmitter and sampler sets above the maximum
channel number are empty (those channels are never written because the Go
channel maps are only allocated for the initialized range). -/
def ChannelsBounded (st : MIState) : Prop :=
  ∀ c, MaxChannelNumber < c → st.transmitters c = [] ∧ st.samplers c = []

/-! ## Theorems settling the claims. -/

/-- Helper for C1: a foldr of max over a mapped list absorbs an extra max in
the accumulator. -/
lemma foldr_max_shift (f : Nat → ℚ) (b : ℚ) (l : List Nat) :
    ∀ a : ℚ, (l.map f).foldr max (max a b) = max b ((l.map f).foldr max a) := by
  induction l with
  | nil => intro a; simp [max_comm]
  | cons x t ih =>
      intro a
      simp only [List.map_cons, List.foldr_cons]
      rw [ih a, max_left_comm]

/-- Helper for C1: the interferer loop without an early abort computes the
running maximum of the interferer RSSI values over the accumulator. -/
lemma interfererLoop_eq_foldr (r : Nat → Nat → ℚ) (dst : Nat) (l : List Nat) :
    ∀ acc : ℚ, dst ∉ l →
      interfererLoop r dst l acc = some ((l.map (fun i => r i dst)).foldr max acc) := by
  induction l with
  | nil => intro acc _; rfl
  | cons x t ih =>
      intro acc h
      have hx : x ≠ dst := by
        rintro rfl
        exact h (List.mem_cons_self x t)
      have ht : dst ∉ t := fun hm => h (List.mem_cons_of_mem _ hm)
      simp only [interfererLoop, if_neg hx]
      rw [ih _ ht]
      simp only [List.map_cons, List.foldr_cons]
      rw [foldr_max_shift]

/-- Helper for C2: the interferer loop aborts as soon as the destination is
among the interferers. -/
lemma interfererLoop_of_mem (r : Nat → Nat → ℚ) (dst : Nat) (l : List Nat) :
    ∀ acc : ℚ, dst ∈ l → interfererLoop r dst l acc = none := by
  induction l with
  | nil => intro acc h; cases h
  | cons x t ih =>
      intro acc h
      by_cases hx : x = dst
      · simp [interfererLoop, hx]
      · have : dst ∈ t := by
          cases h with
          | head => exact absurd rfl hx
          | tail _ hm => exact hm
        simp only [interfererLoop, if_neg hx]
        exact ih _ this

/-- C1: for an rx-done delivery from src to dst where dst is not among the
recorded interferers of the src transmission, applyInterference leaves the
event untouched and hands the BER model the SINR equal to the wanted RSSI
r src dst minus the maximum of the ambient noise floor and the RSSI values
r i dst of all recorded interferers i (dominant-interferer combining, not
power-sum). -/
theorem c1_sinr_dominant_interferer (r : Nat → Nat → ℚ) (noise : ℚ) (src dst : Nat)
    (interferers : List Nat) (evt : Event) (h : dst ∉ interferers) :
    applyInterference r noise src dst interferers evt =
      (evt, some (r src dst - (interferers.map (fun i => r i dst)).foldr max noise)) := by
  unfold applyInterference
  rw [interfererLoop_eq_foldr r dst interferers noise h]

theorem c1_sinr_dominant_interferer_witness :
    applyInterference (fun i j => ((i : ℚ) + j)) (-95) 1 2 [3, 4] Event.zero =
      (Event.zero,
       some (((1 : ℚ) + 2) - ([3, 4].map (fun i => ((i : ℚ) + 2))).foldr max (-95))) :=
  c1_sinr_dominant_interferer (fun i j => ((i : ℚ) + j)) (-95) 1 2 [3, 4] Event.zero
    (by decide)

/-- C2: when the destination itself is among the recorded interferers of the
src transmission (it transmitted while the frame was in the air), the
delivered rx-done event carries OT_ERROR_ABORT and no FCS/BER interference
processing is applied to it (no SINR is handed to the BER model). -/
theorem c2_self_collision_abort (r : Nat → Nat → ℚ) (noise : ℚ) (src dst : Nat)
    (interferers : List Nat) (evt : Event) (h : dst ∈ interferers) :
    (applyInterference r noise src dst interferers evt).1.RadioCommData.Error =
        OT_ERROR_ABORT ∧
      (applyInterference r noise src dst interferers evt).2 = none := by
  unfold applyInterference
  rw [interfererLoop_of_mem r dst interferers noise h]
  exact ⟨rfl, rfl⟩

theorem c2_self_collision_abort_witness :
    (applyInterference (fun _ _ => (0 : ℚ)) (-95) 1 2 [3, 2] Event.zero).1.RadioCommData.Error =
        OT_ERROR_ABORT ∧
      (applyInterference (fun _ _ => (0 : ℚ)) (-95) 1 2 [3, 2] Event.zero).2 = none :=
  c2_self_collision_abort (fun _ _ => (0 : ℚ)) (-95) 1 2 [3, 2] Event.zero (by decide)

/-- C3: a radio-comm-start from a node that already transmits or
channel-samples on the requested channel is aborted: the state is returned
unchanged and the only queued event is a radio-tx-done back to the node
carrying OT_ERROR_ABORT with timestamp one past the event timestamp. -/
theorem c3_txstart_busy_abort (st : MIState) (id : Nat) (evt : Event)
    (hbusy : id ∈ st.transmitters evt.RadioCommData.Channel ∨
      id ∈ st.samplers evt.RadioCommData.Channel)
    (ht : evt.Timestamp + 1 < 2 ^ 64) :
    st.txStart id evt =
      (st, [{ evt with
                EType := EventTypeRadioTxDone,
                RadioCommData := { evt.RadioCommData with Error := OT_ERROR_ABORT },
                MustDispatch := true,
                Timestamp := evt.Timestamp + 1 }]) := by
  simp only [MIState.txStart]
  rw [if_pos hbusy, Nat.mod_eq_of_lt ht]

theorem c3_txstart_busy_abort_witness :
    c3st.txStart 5 c3ev =
      (c3st,
       [{ c3ev with
            EType := EventTypeRadioTxDone,
            RadioCommData := { c3ev.RadioCommData with Error := OT_ERROR_ABORT },
            MustDispatch := true,
            Timestamp := c3ev.Timestamp + 1 }]) :=
  c3_txstart_busy_abort c3st 5 c3ev (by decide) (by decide)

/-- C10: the abort path of txStart is atomic: when the node already
transmits or channel-samples on the requested channel, no transmitter set,
no channel-sampler set, no interferedBy set and no per-node TxPower or
channel field is modified, and exactly one event — the abort radio-tx-done —
is queued. -/
theorem c10_txstart_abort_atomic (st : MIState) (id : Nat) (evt : Event)
    (hbusy : id ∈ st.transmitters evt.RadioCommData.Channel ∨
      id ∈ st.samplers evt.RadioCommData.Channel) :
    (st.txStart id evt).1.transmitters = st.transmitters ∧
      (st.txStart id evt).1.samplers = st.samplers ∧
      (st.txStart id evt).1.interferedBy = st.interferedBy ∧
      (st.txStart id evt).1.txPower = st.txPower ∧
      (st.txStart id evt).1.radioChannel = st.radioChannel ∧
      (st.txStart id evt).2.length = 1 ∧
      ∀ e ∈ (st.txStart id evt).2,
        e.EType = EventTypeRadioTxDone ∧ e.RadioCommData.Error = OT_ERROR_ABORT := by
  simp only [MIState.txStart]
  rw [if_pos hbusy]
  refine ⟨rfl, rfl, rfl, rfl, rfl, rfl, ?_⟩
  intro e he
  rcases List.mem_singleton.mp he with rfl
  exact ⟨rfl, rfl⟩

theorem c10_txstart_abort_atomic_witness :
    (c3st.txStart 5 c3ev).1.transmitters = c3st.transmitters ∧
      (c3st.txStart 5 c3ev).1.samplers = c3st.samplers ∧
      (c3st.txStart 5 c3ev).1.interferedBy = c3st.interferedBy ∧
      (c3st.txStart 5 c3ev).1.txPower = c3st.txPower ∧
      (c3st.txStart 5 c3ev).1.radioChannel = c3st.radioChannel ∧
      (c3st.txStart 5 c3ev).2.length = 1 ∧
      ∀ e ∈ (c3st.txStart 5 c3ev).2,
        e.EType = EventTypeRadioTxDone ∧ e.RadioCommData.Error = OT_ERROR_ABORT :=
  c10_txstart_abort_atomic c3st 5 c3ev (by decide)


/-- C8: the shadow-fading value is a deterministic function of the
unordered pair of node positions and the per-model random seed: swapping the
two nodes gives the same value (the left-most, then top-most, grid point is
chosen as the first seed coordinate pair regardless of argument order), and
evaluations with the same positions agree even as the unused distance
argument varies.  The hypothesis mirrors the Go assertion that both nodes
carry the same RadioRange. -/
theorem c8_shadowfading_symmetric (nf : ℤ → ℝ) (rndSeed : ℤ) (a b : SFNode)
    (dist dist2 : ℝ) (p : IndoorModelParams) (h : a.RadioRange = b.RadioRange) :
    computeShadowFading nf rndSeed a b dist p = computeShadowFading nf rndSeed b a dist p ∧
      computeShadowFading nf rndSeed a b dist p = computeShadowFading nf rndSeed a b dist2 p := by
  refine ⟨?_, rfl⟩
  unfold computeShadowFading
  rw [h]
  by_cases hs : p.ShadowFadingSigmaDb ≤ 0
  · simp [hs]
  · simp only [if_neg hs]
    set x1 := roundGo (a.X / b.RadioRange * p.RangeInMeters) with hx1
    set y1 := roundGo (a.Y / b.RadioRange * p.RangeInMeters) with hy1
    set x2 := roundGo (b.X / b.RadioRange * p.RangeInMeters) with hx2
    set y2 := roundGo (b.Y / b.RadioRange * p.RangeInMeters) with hy2
    rcases lt_trichotomy x1 x2 with hlt | heq | hgt
    · rw [if_pos (Or.inl hlt), if_neg (by omega)]
    · rcases lt_trichotomy y1 y2 with hy | hyeq | hy
      · rw [if_pos (Or.inr ⟨heq, hy⟩), if_neg (by omega)]
      · rw [if_neg (by omega), if_neg (by omega), heq, hyeq]
      · rw [if_neg (by omega), if_pos (Or.inr ⟨heq.symm, hy⟩)]
    · rw [if_neg (by omega), if_pos (Or.inl hgt)]

theorem c8_shadowfading_symmetric_witness :
    computeShadowFading (fun _ => 0) 7 c8a c8b 5 c8p =
        computeShadowFading (fun _ => 0) 7 c8b c8a 5 c8p ∧
      computeShadowFading (fun _ => 0) 7 c8a c8b 5 c8p =
        computeShadowFading (fun _ => 0) 7 c8a c8b 3 c8p :=
  c8_shadowfading_symmetric (fun _ => 0) 7 c8a c8b 5 3 c8p rfl

/-- Helper for C9: consuming pending lines up to the first match returns the
consumed lines (match included) and the remainder. -/
lemma consumeUntil_spec (p : String → Bool) (pre : List String) (x : String)
    (rest : List String) (hpre : ∀ l ∈ pre, p l = false) (hx : p x = true) :
    consumeUntil p (pre ++ x :: rest) = some (pre ++ [x], rest) := by
  induction pre with
  | nil => simp [consumeUntil, hx]
  | cons a t ih =>
      have ha : p a = false := hpre a (List.mem_cons_self a t)
      have ih2 := ih (fun l hl => hpre l (List.mem_cons_of_mem a hl))
      simp [consumeUntil, ha, ih2]

/-- C9 amended: Command consumes pending output up to the echo of the
command, then up to the first line matching DoneOrErrorRegexp; when the
terminator is the Done literal the lines strictly between echo and
terminator are returned, and when the terminator is an Error line the
returned slice additionally includes that terminating Error line (the error
is a recoverable failure of the command, not of the node). -/
theorem c9_command_amended (cmd : String) (pre mid post : List String) (term : String)
    (hpre : ∀ l ∈ pre, l ≠ cmd)
    (hmid : ∀ l ∈ mid, lineIsDoneOrError l = false)
    (hterm : lineIsDoneOrError term = true) :
    nodeCommand cmd (pre ++ cmd :: (mid ++ term :: post)) =
      if term = "Done" then mid else mid ++ [term] := by
  unfold nodeCommand
  rw [consumeUntil_spec _ pre cmd (mid ++ term :: post)
      (fun l hl => decide_eq_false (hpre l hl)) (by simp)]
  dsimp only
  rw [consumeUntil_spec lineIsDoneOrError mid term post hmid hterm]
  dsimp only
  rw [List.getLast?_concat]
  by_cases hD : term = "Done"
  · simp [hD, List.dropLast_concat]
  · simp [hD]

theorem c9_command_amended_witness :
    nodeCommand "state" ["state", "router", "Done"] = ["router"] := by
  have h := c9_command_amended "state" [] ["router"] [] "Done"
    (by intro l hl; cases hl) (by decide) (by decide)
  simpa using h

/-- C9 counterexample: for the command state with pending output echo,
router, and the terminator Error 35: InvalidArgument, the code returns the
output including the terminating Error line, not only the lines strictly
between the echo and the terminator as the claim states. -/
theorem c9_command_error_counterexample :
    nodeCommand "state" ["state", "router", "Error 35: InvalidArgument"] =
        ["router", "Error 35: InvalidArgument"] ∧
      nodeCommand "state" ["state", "router", "Error 35: InvalidArgument"] ≠ ["router"] := by
  constructor
  · decide
  · decide

/-- C6 amended: the event-kind byte of the wire protocol uses the stable
identifiers of src/types/event.go — 0 alarm-fired, 1 radio-received, 2
uart-write, 3 radio-spinel-write, 4 post-cmd, 5 status-push, 6
radio-comm-start, 7 radio-tx-done, 8 radio-channel-sample, 9 radio-state,
10 radio-rx-done, 11 ext-addr; Serialize writes the kind at offset 8 of
every message and Deserialize reads the kind from offset 8. -/
theorem c6_kind_byte_amended :
    (EventTypeAlarmFired = 0 ∧ EventTypeRadioReceived = 1 ∧ EventTypeUartWrite = 2 ∧
      EventTypeRadioSpinelWrite = 3 ∧ EventTypePostCmd = 4 ∧ EventTypeStatusPush = 5 ∧
      EventTypeRadioCommStart = 6 ∧ EventTypeRadioTxDone = 7 ∧
      EventTypeRadioChannelSample = 8 ∧ EventTypeRadioState = 9 ∧
      EventTypeRadioRxDone = 10 ∧ EventTypeExtAddr = 11) ∧
    (∀ e : Event, e.EType < 256 → (Event.Serialize e).getD 8 0 = e.EType) ∧
    (∀ (e0 : Event) (d0 d1 d2 d3 d4 d5 d6 d7 ty l0 l1 : Nat) (edata : List Nat) (e : Event),
      Event.Deserialize e0
          (d0 :: d1 :: d2 :: d3 :: d4 :: d5 :: d6 :: d7 :: ty :: l0 :: l1 :: edata) =
        some e → e.EType = ty) := by
  refine ⟨⟨rfl, rfl, rfl, rfl, rfl, rfl, rfl, rfl, rfl, rfl, rfl, rfl⟩, ?_, ?_⟩
  · intro e he
    have hb : (Event.Serialize e).getD 8 0 = e.EType % 256 := rfl
    rw [hb, Nat.mod_eq_of_lt he]
  · intro e0 d0 d1 d2 d3 d4 d5 d6 d7 ty l0 l1 edata e h
    simp only [Event.Deserialize, deserializeBody] at h
    repeat' split at h
    all_goals first
      | (exact Option.noConfusion h)
      | (injection h with h2; subst h2; rfl)

theorem c6_kind_byte_amended_witness :
    (Event.Serialize { Event.zero with EType := EventTypeUartWrite }).getD 8 0 =
      EventTypeUartWrite :=
  c6_kind_byte_amended.2.1 { Event.zero with EType := EventTypeUartWrite } (by decide)

/-- C6 counterexample: the claim numbers uart-write as kind 1, but the kind
byte written at offset 8 for a uart-write event is 2 (the constant block of
src/types/event.go numbers: 1 radio-received, 2 uart-write, 3
radio-spinel-write, 4 post-cmd, 5 status-push, 6 radio-comm-start, 7
radio-tx-done, 8 radio-channel-sample, 9 radio-state, 10 radio-rx-done). -/
theorem c6_kind_byte_counterexample :
    (Event.Serialize { Event.zero with EType := EventTypeUartWrite }).getD 8 0 = 2 ∧
      (Event.Serialize { Event.zero with EType := EventTypeUartWrite }).getD 8 0 ≠ 1 := by
  exact ⟨by decide, by decide⟩

lemma channelsBounded_init : ChannelsBounded MIState.init := by
  intro c _
  exact ⟨rfl, rfl⟩

lemma channelsBounded_step (st : MIState) (op : MIOp) (hop : op.chOK)
    (h : ChannelsBounded st) : ChannelsBounded (st.step op) := by
  cases op with
  | addNode id => exact h
  | deleteNode id =>
      intro c hc
      have hb := h c hc
      simp only [MIState.step, MIState.deleteNode]
      rw [if_neg (by omega), if_neg (by omega)]
      exact hb
  | txStart id evt =>
      intro c hc
      have hb := h c hc
      have hch : evt.RadioCommData.Channel ≤ MaxChannelNumber := hop
      simp only [MIState.step, MIState.txStart]
      split
      · exact hb
      · constructor
        · show fupd st.transmitters evt.RadioCommData.Channel _ c = []
          unfold fupd
          rw [if_neg (by omega)]
          exact hb.1
        · exact hb.2
  | txStop id evt =>
      intro c hc
      have hb := h c hc
      have hch : evt.RadioCommData.Channel ≤ MaxChannelNumber := hop
      simp only [MIState.step, MIState.txStop]
      constructor
      · show fupd st.transmitters evt.RadioCommData.Channel _ c = []
        unfold fupd
        rw [if_neg (by omega)]
        exact hb.1
      · exact hb.2
  | sampleStart id evt =>
      intro c hc
      have hb := h c hc
      simp only [MIState.step, MIState.channelSampleStart]
      split
      · exact hb
      · exact hb

lemma channelsBounded_run (ops : List MIOp) :
    ∀ st : MIState, (∀ op ∈ ops, op.chOK) → ChannelsBounded st →
      ChannelsBounded (st.run ops) := by
  induction ops with
  | nil => intro st _ h; exact h
  | cons op rest ih =>
      intro st hops h
      have h1 := channelsBounded_step st op (hops op (List.mem_cons_self op rest)) h
      exact ih (st.step op) (fun o ho => hops o (List.mem_cons_of_mem op ho)) h1

/-- C4 amended: after DeleteNode(id) following any sequence of operations
whose radio events carry channels inside the initialized range, the id does
not appear in the transmitter set or channel-sampler set of any channel, and
the interferedBy set OF id itself is empty.  The id may however remain
inside the interferedBy sets of other nodes (see the counterexample). -/
theorem c4_deletenode_amended (ops : List MIOp) (hops : ∀ op ∈ ops, op.chOK) (id : Nat) :
    (∀ c, id ∉ ((MIState.init.run ops).deleteNode id).transmitters c) ∧
      (∀ c, id ∉ ((MIState.init.run ops).deleteNode id).samplers c) ∧
      ((MIState.init.run ops).deleteNode id).interferedBy id = [] := by
  have hB := channelsBounded_run ops MIState.init hops channelsBounded_init
  refine ⟨?_, ?_, ?_⟩
  · intro c hm
    simp only [MIState.deleteNode] at hm
    by_cases hc : MinChannelNumber ≤ c ∧ c ≤ MaxChannelNumber
    · rw [if_pos hc] at hm
      have := (List.mem_filter.mp hm).2
      simp at this
    · rw [if_neg hc] at hm
      have hc2 : MaxChannelNumber < c := by
        unfold MinChannelNumber MaxChannelNumber at *
        omega
      rw [(hB c hc2).1] at hm
      cases hm
  · intro c hm
    simp only [MIState.deleteNode] at hm
    by_cases hc : MinChannelNumber ≤ c ∧ c ≤ MaxChannelNumber
    · rw [if_pos hc] at hm
      have := (List.mem_filter.mp hm).2
      simp at this
    · rw [if_neg hc] at hm
      have hc2 : MaxChannelNumber < c := by
        unfold MinChannelNumber MaxChannelNumber at *
        omega
      rw [(hB c hc2).2] at hm
      cases hm
  · simp [MIState.deleteNode, fupd]

theorem c4_deletenode_amended_witness :
    1 ∉ ((MIState.init.run c4ops).deleteNode 1).transmitters 11 := by
  have h := c4_deletenode_amended c4ops ?_ 1
  · exact h.1 11
  · intro op hop
    simp only [c4ops, List.mem_cons, List.not_mem_nil, or_false] at hop
    rcases hop with rfl | rfl | rfl | rfl <;> simp [MIOp.chOK, c4ev, MaxChannelNumber]

/-- C4 counterexample: nodes 1 and 2 both start transmissions on channel 11
(so node 2 is recorded in the interferedBy set of node 1); after
DeleteNode(2), the id 2 still appears in the interferedBy set of node 1,
contradicting the claim that after DeleteNode(id) the id appears in no
interferedBy set. -/
theorem c4_deletenode_counterexample :
    2 ∈ (((MIState.init.run c4ops).deleteNode 2).interferedBy 1) := by
  decide

/-- C7: GetTxRssi of the MutualInterference model computes the RSSI as the
claim states: with d the distance in meters (distance units times
MeterPerUnit), the pathloss is zero for d below 0.01 and otherwise the
LOS term ExponentDb * log10 d + FixedLossDb clamped to be nonnegative,
replaced by the maximum with the NLOS term when an NLOS branch is
configured; the returned RSSI is txPower minus pathloss minus shadow
fading, clipped to the range RssiMin..RssiMax with values below RssiMin
reported as RssiMinusInfinity, and any value below the receiver
sensitivity reported as RssiMinusInfinity. -/
theorem c7_gettxrssi_formula (p : RadioModelParams) (d txp sf sens : ℝ) :
    getTxRssiMI p d txp sf sens =
      (let dm := d * p.MeterPerUnit
       let pl :=
         if 0.01 ≤ dm then
           if 0 < p.NlosExponentDb then
             max (max 0 (p.ExponentDb * Real.logb 10 dm + p.FixedLossDb))
               (p.NlosExponentDb * Real.logb 10 dm + p.NlosFixedLossDb)
           else max 0 (p.ExponentDb * Real.logb 10 dm + p.FixedLossDb)
         else 0
       let raw := txp - pl - sf
       let clipped :=
         if RssiMax < raw then RssiMax
         else if raw < RssiMin then RssiMinusInfinity
         else raw
       if clipped < sens then RssiMinusInfinity else clipped) := by
  unfold getTxRssiMI computeIndoorRssi3gpp
  have hmax : ∀ a : ℝ, (if a < 0 then (0 : ℝ) else a) = max 0 a := by
    intro a
    rcases le_or_lt 0 a with ha | ha
    · rw [if_neg (not_lt.2 ha), max_eq_right ha]
    · rw [if_pos ha, max_eq_left ha.le]
  simp only [hmax]


lemma getU64_parts (n : Nat) (h : n < 2 ^ 64) :
    getU64 [n % 256, n / 256 % 256, n / 256 ^ 2 % 256, n / 256 ^ 3 % 256,
      n / 256 ^ 4 % 256, n / 256 ^ 5 % 256, n / 256 ^ 6 % 256, n / 256 ^ 7 % 256] = n := by
  simp only [getU64]
  norm_num
  omega

lemma getU16_parts (n : Nat) (h : n < 65536) :
    getU16 [n % 256, n / 256 % 256] = n := by
  simp only [getU16]
  omega

lemma getU64_putU64_append (n : Nat) (h : n < 2 ^ 64) (rest : List Nat) :
    getU64 (putU64 n ++ rest) = n := by
  simp only [putU64, List.cons_append, List.nil_append, getU64]
  norm_num
  omega

lemma putU64_drop8 (n : Nat) (rest : List Nat) : (putU64 n ++ rest).drop 8 = rest := rfl

lemma putU64_length (n : Nat) : (putU64 n).length = 8 := rfl

lemma byteToInt8_int8ToByte (i : Int) (h1 : -128 ≤ i) (h2 : i < 128) :
    byteToInt8 (int8ToByte i) = i := by
  unfold byteToInt8 int8ToByte
  omega


lemma serializeExtra_length (e : Event) : (serializeExtra e).length ≤ 11 := by
  unfold serializeExtra
  split_ifs <;> simp [putU64]

lemma deserialize_serialize_reduce (e0 e : Event) (hdly : e.Delay < 2 ^ 64)
    (hlen : (serializeExtra e ++ e.Data).length < 65536) :
    Event.Deserialize e0 (Event.Serialize e) =
      deserializeBody e0 e.Delay (e.EType % 256) (serializeExtra e ++ e.Data) := by
  simp only [Event.Serialize, putU64, putU16, List.cons_append, List.nil_append,
    Event.Deserialize]
  rw [getU16_parts _ hlen, getU64_parts _ hdly]
  simp


lemma body_alarm (e0 : Event) (dly m : Nat) (hm : m < 2 ^ 64) (rest : List Nat) :
    deserializeBody e0 dly EventTypeAlarmFired (putU64 m ++ rest) =
      some { e0 with
              Delay := dly,
              EType := EventTypeAlarmFired,
              AlarmData := { MsgId := m },
              Data := rest,
              Timestamp := InvalidTimestamp } := by
  unfold deserializeBody
  rw [if_pos rfl, if_pos (by simp [putU64])]
  rw [getU64_putU64_append m hm rest, putU64_drop8]

lemma body_sample (e0 : Event) (dly c p er du : Nat) (hdu : du < 2 ^ 64)
    (rest : List Nat) :
    deserializeBody e0 dly EventTypeRadioChannelSample
        (c :: p :: er :: (putU64 du ++ rest)) =
      some { e0 with
              Delay := dly,
              EType := EventTypeRadioChannelSample,
              RadioCommData :=
                { Channel := c, PowerDbm := byteToInt8 p, Error := er, Duration := du },
              Data := rest,
              Timestamp := InvalidTimestamp } := by
  unfold deserializeBody
  rw [if_neg (by decide), if_pos rfl]
  have hrc : deserializeRadioCommData (c :: p :: er :: (putU64 du ++ rest)) =
      some { Channel := c, PowerDbm := byteToInt8 p, Error := er, Duration := du } := by
    simp only [deserializeRadioCommData]
    rw [if_pos (by simp [putU64]), getU64_putU64_append du hdu rest]
  rw [hrc]
  have hdrop : (c :: p :: er :: (putU64 du ++ rest)).drop 11 = rest := rfl
  rw [hdrop]

lemma body_rxdone (e0 : Event) (dly ty c p er du ch2 : Nat) (hdu : du < 2 ^ 64)
    (hty : ty = EventTypeRadioRxDone ∨ ty = EventTypeRadioCommStart)
    (rest : List Nat) (hch : ch2 = c) :
    deserializeBody e0 dly ty (c :: p :: er :: (putU64 du ++ (ch2 :: rest))) =
      some { e0 with
              Delay := dly,
              EType := ty,
              RadioCommData :=
                { Channel := c, PowerDbm := byteToInt8 p, Error := er, Duration := du },
              Data := ch2 :: rest,
              Timestamp := InvalidTimestamp } := by
  subst hch
  unfold deserializeBody
  rw [if_neg (by rcases hty with rfl | rfl <;> decide),
    if_neg (by rcases hty with rfl | rfl <;> decide), if_pos hty]
  have hrc : deserializeRadioCommData (ch2 :: p :: er :: (putU64 du ++ (ch2 :: rest))) =
      some { Channel := ch2, PowerDbm := byteToInt8 p, Error := er, Duration := du } := by
    simp only [deserializeRadioCommData]
    rw [if_pos (by simp [putU64]), getU64_putU64_append du hdu (ch2 :: rest)]
  rw [hrc]
  have hdrop : (ch2 :: p :: er :: (putU64 du ++ (ch2 :: rest))).drop 11 = ch2 :: rest := rfl
  rw [hdrop]
  simp

lemma body_plain (e0 : Event) (dly ty : Nat) (edata : List Nat)
    (h0 : ty ≠ EventTypeAlarmFired) (h6 : ty ≠ EventTypeRadioCommStart)
    (h8 : ty ≠ EventTypeRadioChannelSample) (h9 : ty ≠ EventTypeRadioState)
    (h10 : ty ≠ EventTypeRadioRxDone) :
    deserializeBody e0 dly ty edata =
      some { e0 with
              Delay := dly,
              EType := ty,
              Data := edata,
              Timestamp := InvalidTimestamp } := by
  unfold deserializeBody
  rw [if_neg h0, if_neg h8, if_neg (by rintro (h | h) <;> [exact h10 h; exact h6 h]),
    if_neg h9]


/-- C5 amended: serialize-then-deserialize restores the transmitted fields
— Delay, kind, raw Data bytes and the kind-specific struct — for alarm-fired
events, for radio-channel-sample events, for radio-comm-start and
radio-rx-done events whose Data begins with the duplicated channel byte (as
every PSDU payload written by a node does), and for every kind without
kind-specific handling on either side; Timestamp is not transmitted.  The
kinds radio-tx-done (serialized but never parsed back) and radio-state
(parsed but never serialized) are excluded: they do not round-trip, see the
counterexample. -/
theorem c5_roundtrip_amended (e : Event)
    (h1 : e.Delay < 2 ^ 64) (h2 : e.EType < 256) (h3 : e.AlarmData.MsgId < 2 ^ 64)
    (h4 : e.RadioCommData.Channel < 256) (h5 : -128 ≤ e.RadioCommData.PowerDbm)
    (h6 : e.RadioCommData.PowerDbm < 128) (h7 : e.RadioCommData.Error < 256)
    (h8 : e.RadioCommData.Duration < 2 ^ 64) (h9 : 11 + e.Data.length < 65536)
    (hkind : e.EType = EventTypeAlarmFired ∨ e.EType = EventTypeRadioChannelSample ∨
      ((e.EType = EventTypeRadioRxDone ∨ e.EType = EventTypeRadioCommStart) ∧
        e.Data.head? = some e.RadioCommData.Channel) ∨
      (e.EType ≠ EventTypeAlarmFired ∧ e.EType ≠ EventTypeRadioCommStart ∧
        e.EType ≠ EventTypeRadioTxDone ∧ e.EType ≠ EventTypeRadioChannelSample ∧
        e.EType ≠ EventTypeRadioState ∧ e.EType ≠ EventTypeRadioRxDone)) :
    ∃ e2, Event.Deserialize Event.zero (Event.Serialize e) = some e2 ∧
      e2.Delay = e.Delay ∧ e2.EType = e.EType ∧ e2.Data = e.Data ∧
      (e.EType = EventTypeAlarmFired → e2.AlarmData = e.AlarmData) ∧
      (e.EType = EventTypeRadioChannelSample ∨ e.EType = EventTypeRadioRxDone ∨
        e.EType = EventTypeRadioCommStart → e2.RadioCommData = e.RadioCommData) := by
  have hlen : (serializeExtra e ++ e.Data).length < 65536 := by
    rw [List.length_append]
    have := serializeExtra_length e
    omega
  have hred := deserialize_serialize_reduce Event.zero e h1 hlen
  have hmod : e.EType % 256 = e.EType := Nat.mod_eq_of_lt h2
  rw [hmod] at hred
  rcases hkind with hty | hty | ⟨hty, hhead⟩ | ⟨n0, n6, n7, n8, n9, n10⟩
  · -- alarm-fired
    have hex : serializeExtra e = putU64 e.AlarmData.MsgId := by
      simp [serializeExtra, hty]
    rw [hex, hty] at hred
    rw [body_alarm Event.zero e.Delay e.AlarmData.MsgId h3 e.Data] at hred
    refine ⟨_, hred, rfl, hty.symm, rfl, fun _ => rfl, fun hc => ?_⟩
    rw [hty] at hc
    rcases hc with hc | hc | hc <;> exact absurd hc (by decide)
  · -- radio-channel-sample
    have hex : serializeExtra e =
        e.RadioCommData.Channel % 256 :: int8ToByte e.RadioCommData.PowerDbm ::
          e.RadioCommData.Error % 256 :: putU64 e.RadioCommData.Duration := by
      simp [serializeExtra, hty, EventTypeAlarmFired, EventTypeRadioChannelSample]
    rw [hex, Nat.mod_eq_of_lt h4, Nat.mod_eq_of_lt h7, hty] at hred
    rw [List.cons_append, List.cons_append, List.cons_append] at hred
    rw [body_sample Event.zero e.Delay _ _ _ _ h8 e.Data] at hred
    rw [byteToInt8_int8ToByte _ h5 h6] at hred
    exact ⟨_, hred, rfl, hty.symm, rfl, fun hc => absurd hc (by rw [hty]; decide),
      fun _ => rfl⟩
  · -- radio-rx-done / radio-comm-start with duplicated channel byte
    rcases hD : e.Data with _ | ⟨a, t⟩
    · rw [hD] at hhead
      cases hhead
    · have ha : a = e.RadioCommData.Channel := by
        rw [hD] at hhead
        simpa using hhead
      subst ha
      have hex : serializeExtra e =
          e.RadioCommData.Channel % 256 :: int8ToByte e.RadioCommData.PowerDbm ::
            e.RadioCommData.Error % 256 :: putU64 e.RadioCommData.Duration := by
        rcases hty with hty | hty <;>
          simp [serializeExtra, hty, EventTypeAlarmFired, EventTypeRadioChannelSample,
            EventTypeRadioRxDone, EventTypeRadioCommStart]
      rw [hex, Nat.mod_eq_of_lt h4, Nat.mod_eq_of_lt h7, hD] at hred
      rw [List.cons_append, List.cons_append, List.cons_append] at hred
      rw [body_rxdone Event.zero e.Delay e.EType _ _ _ _ _ h8 hty t rfl] at hred
      rw [byteToInt8_int8ToByte _ h5 h6] at hred
      refine ⟨_, hred, rfl, rfl, rfl, fun hc => ?_, fun _ => rfl⟩
      rcases hty with hty | hty <;> rw [hty] at hc <;> exact absurd hc (by decide)
  · -- kinds with no serialized struct on either side
    have hex : serializeExtra e = [] := by
      unfold serializeExtra
      rw [if_neg n0, if_neg (by rintro (h | h | h | h) <;> simp_all)]
    rw [hex, List.nil_append] at hred
    rw [body_plain Event.zero e.Delay e.EType e.Data n0 n6 n8 n9 n10] at hred
    refine ⟨_, hred, rfl, rfl, rfl, fun hc => absurd hc n0, fun hc => ?_⟩
    rcases hc with hc | hc | hc
    · exact absurd hc n8
    · exact absurd hc n10
    · exact absurd hc n6


theorem c5_roundtrip_amended_witness :
    ∃ e2, Event.Deserialize Event.zero (Event.Serialize c5evAlarm) = some e2 ∧
      e2.Delay = c5evAlarm.Delay ∧ e2.EType = c5evAlarm.EType ∧
      e2.Data = c5evAlarm.Data ∧
      (c5evAlarm.EType = EventTypeAlarmFired → e2.AlarmData = c5evAlarm.AlarmData) ∧
      (c5evAlarm.EType = EventTypeRadioChannelSample ∨
        c5evAlarm.EType = EventTypeRadioRxDone ∨
        c5evAlarm.EType = EventTypeRadioCommStart →
        e2.RadioCommData = c5evAlarm.RadioCommData) :=
  c5_roundtrip_amended c5evAlarm (by decide) (by decide) (by decide) (by decide)
    (by decide) (by decide) (by decide) (by decide) (by decide) (by decide)

/-- C5 counterexample: a radio-tx-done event does not survive the round
trip.  Serialize writes the RadioCommData fields of a radio-tx-done event,
but Deserialize has no case for that kind and leaves the 11 struct bytes
inside Data: the deserialized event differs from the original both in Data
and in RadioCommData. -/
theorem c5_roundtrip_counterexample :
    (Event.Deserialize Event.zero (Event.Serialize c5ev)).map
        (fun e2 => (e2.Data, e2.RadioCommData)) ≠
      some (c5ev.Data, c5ev.RadioCommData) := by
  decide

end OTNS
